import Mathlib

/-
Verification of the gptapi repository (files gptapi.py and gptapi-old.py)
against its natural-language specification.

Shallow embedding conventions:
- YAML / JSON values are modelled by the inductive `Json`; Python dicts built
  by the code become association lists `List (String × Json)` in insertion
  order (dict.update with fresh keys appends, which is what the code does).
- Python exceptions become `Except Err`; each `Err` constructor is documented
  with the concrete Python exception it models.
- The tiktoken encoder is an external collaborator; it is abstracted as a
  function `enc : String → Nat` giving the token count of a string, which
  models `len(encoding.encode(s))` for the model-specific encoding.
- The OpenAI client is an external collaborator; the completion call is
  abstracted as a function from the request dictionary to a `Completion`.
-/

set_option autoImplicit false

/-- JSON-like values, used both for YAML documents the code loads and for the
request dictionaries it builds.  Numbers occurring in the claims are integers,
so `num` carries an `Int`. -/
inductive Json where
  | null
  | bool (b : Bool)
  | num (n : Int)
  | str (s : String)
  | arr (elems : List Json)
  | obj (fields : List (String × Json))

/-- Error outcomes of the embedded code.  Each constructor models one concrete
Python exception raised by the source:
- `configError`: SystemExit raised by `ConfigurationManager.load_file` on a
  YAML parse failure;
- `tokenLimitExceeded`: CustomException with message
  Token limit exceeded. raised by the current `prepare_parameters`;
- `tooLarge`: CustomException with message
  Input too large, and maximum cuts exceeded. raised by the old
  `prepare_parameters` when the cut budget is exhausted;
- `keyError`: Python KeyError from indexing a mapping with a missing key
  (for example reading the schema of a structured_output section that has
  no schema entry);
- `emptyResult`: CustomException with message
  Received empty response from API. raised by `gptapi` on a falsy result;
- `attributeError`: Python AttributeError from reading `.arguments` when
  `message.function_call` is None;
- `indexError`: Python IndexError from `completion.choices[0]` on an empty
  choices list;
- `unboundLocalCompletion`: Python UnboundLocalError from reading the local
  variable `completion` when the batching branch of `gptapi` was taken and
  never assigned it. -/
inductive Err where
  | configError
  | tokenLimitExceeded
  | tooLarge
  | keyError
  | emptyResult
  | attributeError
  | indexError
  | unboundLocalCompletion
  deriving DecidableEq, Repr

/-- The structured_output section of a profile.  The code reads only `enable`
and `schema`; the `name` and `strict` entries may be present in the YAML (the
spec mentions them) but are never read by any version of the source. -/
structure StructuredOutputConfig where
  enable : Bool
  name : Option String
  strict : Option Bool
  schema : Option Json

/-- The parameters section of a profile.  `max_tokens` is a natural number
because the code compares token counts against it; the remaining sampling
knobs are copied verbatim into the request, so they stay opaque `Json`
values.  `stop`, `frequency_penalty` and `presence_penalty` are read with
`dict.get` and a default, so they are optional. -/
structure SamplingParams where
  max_tokens : Nat
  temperature : Json
  top_p : Json
  n : Json
  stop : Option Json
  frequency_penalty : Option Json
  presence_penalty : Option Json

/-- The profile fields read by `prepare_parameters` in both versions of the
source.  The logging and credentials_file fields are consumed by side-effecting
code (log setup, key loading) that no claim is about, so they are omitted. -/
structure Config where
  model : String
  system_prompt : String
  parameters : SamplingParams
  structured_output : Option StructuredOutputConfig

namespace ConfigurationManager

/-- Models `ConfigurationManager.load_file`: `yaml.safe_load` either parses the
file (argument `some m`, with `m` the parsed top-level mapping) or raises a
YAMLError (argument `none`), which the code converts into a SystemExit.  The
function performs no inspection of the parsed mapping whatsoever. -/
def load_file (parsed : Option (List (String × Json))) :
    Except Err (List (String × Json)) :=
  match parsed with
  | none => Except.error Err.configError
  | some m => Except.ok m

/-- Models `ConfigurationManager.load_yaml` for a single load: the per-path
cache only memoizes `load_file`, so the observable result of loading one
profile is exactly `load_file`. -/
def load_yaml (parsed : Option (List (String × Json))) :
    Except Err (List (String × Json)) :=
  load_file parsed

end ConfigurationManager

/-- The two-entry message list built at the top of `prepare_parameters`,
rendered as the JSON value the request dictionary carries under the key
messages. -/
def messages_json (system_prompt prompt : String) : Json :=
  Json.arr
    [Json.obj [(("role"), Json.str ("system")), (("content"), Json.str system_prompt)],
     Json.obj [(("role"), Json.str ("user")), (("content"), Json.str prompt)]]

/-- Models the token count
`sum([len(encoding.encode(m['content'])) for m in messages])` over a messages
value.  The fallback 0 branches are unreachable for the messages values the
code actually builds (in Python a malformed entry would raise, but every
messages value constructed by this embedding has the proper shape). -/
def messages_token_count (enc : String → Nat) : Json → Nat
  | Json.arr ms =>
      (ms.map (fun m =>
        match m with
        | Json.obj fields =>
            match List.lookup ("content") fields with
            | some (Json.str s) => enc s
            | _ => 0
        | _ => 0)).sum
  | _ => 0

/-- The base request dictionary built by `prepare_parameters` (identical in
both versions of the source): model, messages, then the sampling parameters,
where stop, frequency_penalty and presence_penalty are read with defaults
None, 0.0 and 0.0. -/
def base_request (cfg : Config) (prompt : String) : List (String × Json) :=
  [(("model"), Json.str cfg.model),
   (("messages"), messages_json cfg.system_prompt prompt),
   (("max_tokens"), Json.num cfg.parameters.max_tokens),
   (("temperature"), cfg.parameters.temperature),
   (("top_p"), cfg.parameters.top_p),
   (("n"), cfg.parameters.n),
   (("stop"), cfg.parameters.stop.getD Json.null),
   (("frequency_penalty"), cfg.parameters.frequency_penalty.getD (Json.num 0)),
   (("presence_penalty"), cfg.parameters.presence_penalty.getD (Json.num 0))]

/-- The two entries `parameters.update(...)` appends when structured output is
enabled: a singleton functions list carrying the profile schema verbatim, and
a function_call selector.  The function name is the literal format_response in
the source; the profile-level structured_output name is never read. -/
def structured_extras (schema : Json) : List (String × Json) :=
  [(("functions"),
     Json.arr [Json.obj
       [(("name"), Json.str ("format_response")),
        (("description"), Json.str ("Formats the response according to the specified schema.")),
        (("parameters"), schema)]]),
   (("function_call"), Json.obj [(("name"), Json.str ("format_response"))])]

/-- Models the tail of `prepare_parameters`: the truthiness test
`config.get('structured_output', dict()).get('enable')` followed, when it
holds, by the indexing `config['structured_output']['schema']` (a KeyError
when the schema entry is absent) and the `parameters.update(...)` call. -/
def attach_structured_output (cfg : Config) (ps : List (String × Json)) :
    Except Err (List (String × Json)) :=
  match cfg.structured_output with
  | some so =>
      if so.enable then
        match so.schema with
        | some sch => Except.ok (ps ++ structured_extras sch)
        | none => Except.error Err.keyError
      else Except.ok ps
  | none => Except.ok ps

/-- The truthiness of `config.get('structured_output', dict()).get('enable')`,
as evaluated again by `gptapi` when extracting the result. -/
def structured_enabled (cfg : Config) : Bool :=
  match cfg.structured_output with
  | some so => so.enable
  | none => false

namespace GptApi

/-- Models `APICallPreparer.prepare_parameters` of the current gptapi.py:
build the two messages, count their tokens with the model encoding, raise
CustomException when the count exceeds `parameters.max_tokens`, and otherwise
return the request dictionary, with the structured-output function entries
appended when enabled. -/
def prepare_parameters (enc : String → Nat) (cfg : Config) (prompt : String) :
    Except Err (List (String × Json)) :=
  let messages := messages_json cfg.system_prompt prompt
  let total_tokens := messages_token_count enc messages
  if total_tokens > cfg.parameters.max_tokens then
    Except.error Err.tokenLimitExceeded
  else
    attach_structured_output cfg (base_request cfg prompt)

end GptApi

/-- The global constant MAX_INPUT_TOKENS of gptapi-old.py. -/
def MAX_INPUT_TOKENS : Nat := 120000

/-- The global constant CUTS of gptapi-old.py, the maximum number of cuts. -/
def CUTS : Nat := 3

namespace GptApiOld

/-- The first half of the prompt with overlap, as sliced by gptapi-old.py:
`self.prompt[:end_cut]` where
`end_cut = min(midpoint + overlap, len(self.prompt))`,
`midpoint = len(self.prompt) // 2` and
`overlap = int(len(self.prompt) * 0.05)`.  Python slices strings by
characters, so the slice is `List.take` on the character list.  For every
relevant length n, the float expression `int(n * 0.05)` equals the exact
floor of n / 20, which is the natural-number division n * 5 / 100: the
relative error of the double product n * 0.05 is below 6e-17, far less than
the distance 1 / 20 from the true value to the next integer below when n is
not a multiple of 20, and less than half an ulp when it is. -/
def first_half (prompt : String) : String :=
  String.mk (prompt.data.take
    (min (prompt.length / 2 + prompt.length * 5 / 100) prompt.length))

/-- The second half of the prompt with overlap, as sliced by gptapi-old.py:
`self.prompt[start_cut:]` where
`start_cut = max(midpoint - overlap, 0)`.  Natural-number subtraction is
exactly the clamped difference `max(midpoint - overlap, 0)`. -/
def second_half (prompt : String) : String :=
  String.mk (prompt.data.drop (prompt.length / 2 - prompt.length * 5 / 100))

/-- Models `APICallPreparer.prepare_parameters` of gptapi-old.py, with the
cut counter reparametrized for structural recursion: the argument `remaining`
stands for `CUTS - cut_attempt`, so the source test `cut_attempt >= CUTS` is
`remaining = 0` and the recursive calls at `cut_attempt + 1` are calls at
`remaining - 1`.  When the token count of the two messages exceeds
MAX_INPUT_TOKENS the prompt is split into the two overlapping halves and
parameters are prepared for both (in source order, so a failure in either
half propagates), and only the first half result is returned; otherwise the
same request dictionary as the current version is built (the old version has
no comparison against parameters.max_tokens). -/
def prepare_aux (enc : String → Nat) (cfg : Config) :
    Nat → String → Except Err (List (String × Json))
  | remaining, prompt =>
    let total_tokens := messages_token_count enc (messages_json cfg.system_prompt prompt)
    if total_tokens > MAX_INPUT_TOKENS then
      match remaining with
      | 0 => Except.error Err.tooLarge
      | r + 1 =>
          (prepare_aux enc cfg r (first_half prompt)).bind (fun first_parameters =>
            (prepare_aux enc cfg r (second_half prompt)).bind (fun _second_parameters =>
              Except.ok first_parameters))
    else
      attach_structured_output cfg (base_request cfg prompt)

/-- The old `prepare_parameters` at a given cut_attempt, recovering the source
parametrization from `prepare_aux`. -/
def prepare_parameters (enc : String → Nat) (cfg : Config) (prompt : String)
    (cut_attempt : Nat) : Except Err (List (String × Json)) :=
  prepare_aux enc cfg (CUTS - cut_attempt) prompt

/-- The depth of the recursion tree of `prepare_aux` on the same arguments:
0 when no recursive call happens, and one more than the deeper of the two
half calls when the split is taken.  It mirrors the structure of
`prepare_aux` exactly and instruments its recursion depth. -/
def split_depth (enc : String → Nat) (cfg : Config) : Nat → String → Nat
  | remaining, prompt =>
    let total_tokens := messages_token_count enc (messages_json cfg.system_prompt prompt)
    if total_tokens > MAX_INPUT_TOKENS then
      match remaining with
      | 0 => 0
      | r + 1 =>
          (max (split_depth enc cfg r (first_half prompt))
               (split_depth enc cfg r (second_half prompt))) + 1
    else 0

end GptApiOld

/-- The function_call member of a response message.  Its `arguments` is the
structured payload; `none` models a JSON null payload. -/
structure FunctionCall where
  arguments : Option String
  deriving DecidableEq

/-- A response message: `content` is the free-text field (None-able in the
client library), `function_call` is absent (None) when the model made no
function call. -/
structure RespMessage where
  content : Option String
  function_call : Option FunctionCall
  deriving DecidableEq

/-- One choice of a completion response. -/
structure Choice where
  message : RespMessage
  deriving DecidableEq

/-- A completion response, exposing its list of choices. -/
structure Completion where
  choices : List Choice
  deriving DecidableEq

/-- Models the result extraction of `gptapi` (identical in both versions):
`completion.choices[0].message.function_call.arguments` when structured
output is enabled, else `completion.choices[0].message.content`, followed by
the falsiness test `if not result` which raises the empty-response
CustomException on None and on the empty string.  Reading `.arguments` when
`function_call` is None is a Python AttributeError, and `choices[0]` on an
empty list is an IndexError; both are caught by the generic handler, not
turned into the empty-response error. -/
def extract_result (structuredEnabled : Bool) (completion : Completion) :
    Except Err String :=
  match completion.choices with
  | [] => Except.error Err.indexError
  | choice :: _ =>
    let fieldValue : Except Err (Option String) :=
      if structuredEnabled then
        match choice.message.function_call with
        | none => Except.error Err.attributeError
        | some fc => Except.ok fc.arguments
      else
        Except.ok choice.message.content
    fieldValue.bind (fun result =>
      match result with
      | none => Except.error Err.emptyResult
      | some s => if s = ("") then Except.error Err.emptyResult else Except.ok s)

/-- The configured field of a response choice, in the sense of the spec: the
structured function-call payload when structured output is enabled, the
free-text content otherwise.  In the structured case the payload is reached
through `function_call`, so an absent `function_call` also yields `none`. -/
def configured_field (structuredEnabled : Bool) (choice : Choice) : Option String :=
  if structuredEnabled then choice.message.function_call.bind (fun fc => fc.arguments)
  else choice.message.content

/-- Models the body of `gptapi` in the current gptapi.py after the profile is
loaded (the file reads, logging setup and client construction are side
effects no claim is about; `respond` abstracts the external completion
call): prepare the parameters, recount the tokens of the prepared messages
with the same model encoding, and compare against parameters.max_tokens.
In the exceeding branch the source only logs (the batching code is commented
out) and never assigns the local variable `completion`, so the subsequent
read of `completion` raises UnboundLocalError; in the other branch the
completion call is made and the result extracted. -/
def gptapi_pipeline (enc : String → Nat) (cfg : Config) (prompt : String)
    (respond : List (String × Json) → Completion) : Except Err String :=
  (GptApi.prepare_parameters enc cfg prompt).bind (fun ps =>
    let total_tokens :=
      messages_token_count enc ((List.lookup ("messages") ps).getD Json.null)
    if total_tokens > cfg.parameters.max_tokens then
      Except.error Err.unboundLocalCompletion
    else
      extract_result (structured_enabled cfg) (respond ps))

/-- A token counter assigning one token to every string; a stand-in for the
model encoding on short inputs. -/
def encOne : String → Nat := fun _ => 1

/-- A token counter assigning 200000 tokens to every string, so that every
prompt exceeds every ceiling. -/
def encBig : String → Nat := fun _ => 200000

/-- A token counter under which strings of four or more characters exceed the
old input ceiling while shorter strings count one token, so that one split
resolves the overflow. -/
def encSel : String → Nat := fun s => if 4 ≤ s.length then 200000 else 1

/-- The parameters section of the scenario profile of the spec: max_tokens 10,
temperature 0, top_p 1, n 1, with the optional knobs absent. -/
def scenParams : SamplingParams :=
  { max_tokens := 10, temperature := Json.num 0, top_p := Json.num 1, n := Json.num 1,
    stop := none, frequency_penalty := none, presence_penalty := none }

/-- The scenario profile of the spec with structured output disabled. -/
def scenPlain : Config :=
  { model := ("m1"), system_prompt := ("S"), parameters := scenParams,
    structured_output := some { enable := false, name := none, strict := none, schema := none } }

/-- The schema of the structured scenario profile of the spec: an object with
a properties member holding one empty property, and nothing else. -/
def scenSchema : Json := Json.obj [(("properties"), Json.obj [(("a"), Json.obj [])])]

/-- The scenario profile of the spec with structured output enabled, name x
and the schema above. -/
def scenStructured : Config :=
  { model := ("m1"), system_prompt := ("S"), parameters := scenParams,
    structured_output := some { enable := true, name := some ("x"), strict := none, schema := some scenSchema } }

/-- A parsed profile mapping that is missing the required field model while
carrying the other three required fields. -/
def profileMissingModel : List (String × Json) :=
  [(("system_prompt"), Json.str ("S")),
   (("parameters"), Json.obj []),
   (("structured_output"), Json.obj [])]

/-- A response choice whose message carries no function_call at all, the
shape a structured-mode response has when the model made no function call. -/
def choiceNoFunctionCall : Choice :=
  { message := { content := some ("hi"), function_call := none } }

/-- A response choice whose function_call is present but carries a null
arguments payload. -/
def choiceNullArguments : Choice :=
  { message := { content := some ("hi"), function_call := some { arguments := none } } }

/-- Token counts of the two built messages add up: the count of the messages
value is the count of the system prompt plus the count of the user prompt. -/
theorem messages_token_count_pair (enc : String → Nat) (a b : String) :
    messages_token_count enc (messages_json a b) = enc a + enc b := by
  show enc a + (enc b + 0) = enc a + enc b
  simp

/-- Splitting an ok result of `attach_structured_output` into its two possible
shapes: the base dictionary unchanged, or the base dictionary with the two
structured-output entries appended. -/
theorem attach_ok_cases {cfg : Config} {b ps : List (String × Json)}
    (h : attach_structured_output cfg b = Except.ok ps) :
    ps = b ∨ ∃ sch : Json, ps = b ++ structured_extras sch := by
  cases hso : cfg.structured_output with
  | none =>
    simp only [attach_structured_output, hso] at h
    exact Or.inl (Except.ok.inj h).symm
  | some so =>
    by_cases hen : so.enable = true
    · cases hsch : so.schema with
      | none =>
        simp only [attach_structured_output, hso, hen, if_true, hsch] at h
        exact absurd h (by simp)
      | some sch =>
        simp only [attach_structured_output, hso, hen, if_true, hsch] at h
        exact Or.inr ⟨sch, (Except.ok.inj h).symm⟩
    · simp only [attach_structured_output, hso] at h
      rw [if_neg hen] at h
      exact Or.inl (Except.ok.inj h).symm

/-- An ok result of the current `prepare_parameters` means the token check
passed and the result is the attached request dictionary. -/
theorem prepare_ok_cases {enc : String → Nat} {cfg : Config} {prompt : String}
    {ps : List (String × Json)}
    (h : GptApi.prepare_parameters enc cfg prompt = Except.ok ps) :
    messages_token_count enc (messages_json cfg.system_prompt prompt) ≤ cfg.parameters.max_tokens ∧
    attach_structured_output cfg (base_request cfg prompt) = Except.ok ps := by
  unfold GptApi.prepare_parameters at h
  by_cases hc : messages_token_count enc (messages_json cfg.system_prompt prompt) >
      cfg.parameters.max_tokens
  · rw [if_pos hc] at h; exact absurd h (by simp)
  · rw [if_neg hc] at h; exact ⟨Nat.not_lt.mp hc, h⟩

/-- Every ok result of `attach_structured_output` over a base request keeps
the built messages under the messages key. -/
theorem lookup_messages_of_attach {cfg : Config} {prompt : String}
    {ps : List (String × Json)}
    (h : attach_structured_output cfg (base_request cfg prompt) = Except.ok ps) :
    List.lookup ("messages") ps = some (messages_json cfg.system_prompt prompt) := by
  rcases attach_ok_cases h with h1 | ⟨sch, h2⟩
  · rw [h1]; rfl
  · rw [h2]; rfl

/-- Result extraction never produces the unbound-completion error: its error
outcomes are only the index, attribute and empty-result errors. -/
theorem extract_result_ne_unbound (b : Bool) (c : Completion) :
    extract_result b c ≠ Except.error Err.unboundLocalCompletion := by
  rcases c with ⟨_ | ⟨⟨content, fc⟩, rest⟩⟩
  · simp [extract_result]
  · cases b
    · cases content with
      | none => simp [extract_result, Except.bind]
      | some s =>
        by_cases hs : s = ("") <;>
          simp [extract_result, Except.bind, hs]
    · cases fc with
      | none => simp [extract_result, Except.bind]
      | some f =>
        cases hargs : f.arguments with
        | none => simp [extract_result, Except.bind, hargs]
        | some s =>
          by_cases hs : s = ("") <;>
            simp [extract_result, Except.bind, hargs, hs]

namespace GptApiOld

/-- Unfolding `prepare_aux` once in the overflow case with cut budget left:
the result is the bind of the two recursive calls on the overlapping halves,
returning the first result. -/
theorem prepare_aux_split (enc : String → Nat) (cfg : Config) (r : Nat) (prompt : String)
    (htok : messages_token_count enc (messages_json cfg.system_prompt prompt) > MAX_INPUT_TOKENS) :
    prepare_aux enc cfg (r + 1) prompt =
      (prepare_aux enc cfg r (first_half prompt)).bind (fun first_parameters =>
        (prepare_aux enc cfg r (second_half prompt)).bind (fun _second_parameters =>
          Except.ok first_parameters)) := by
  simp only [prepare_aux]
  rw [if_pos htok]

/-- Unfolding the old `prepare_parameters` in the overflow case below the cut
ceiling: it equals the bind of the two recursive calls at the incremented cut
counter, returning the first result. -/
theorem prepare_split_eq (enc : String → Nat) (cfg : Config) (prompt : String)
    (cut_attempt : Nat)
    (htok : messages_token_count enc (messages_json cfg.system_prompt prompt) > MAX_INPUT_TOKENS)
    (hcut : cut_attempt < CUTS) :
    prepare_parameters enc cfg prompt cut_attempt =
      (prepare_parameters enc cfg (first_half prompt) (cut_attempt + 1)).bind
        (fun first_parameters =>
          (prepare_parameters enc cfg (second_half prompt) (cut_attempt + 1)).bind
            (fun _second_parameters => Except.ok first_parameters)) := by
  unfold prepare_parameters
  have h : CUTS - cut_attempt = (CUTS - (cut_attempt + 1)) + 1 := by
    unfold CUTS at hcut ⊢
    omega
  rw [h]
  exact prepare_aux_split enc cfg (CUTS - (cut_attempt + 1)) prompt htok

/-- The recursion depth instrumentation is bounded by the remaining cut
budget. -/
theorem split_depth_le (enc : String → Nat) (cfg : Config) :
    ∀ (remaining : Nat) (prompt : String), split_depth enc cfg remaining prompt ≤ remaining := by
  intro remaining
  induction remaining with
  | zero =>
    intro prompt
    simp only [split_depth]
    split <;> simp
  | succ r ih =>
    intro prompt
    simp only [split_depth]
    split
    · exact Nat.succ_le_succ (max_le (ih _) (ih _))
    · exact Nat.zero_le _

end GptApiOld

/-- C3: when the estimated token count of the two built messages exceeds the
ceiling of 120000 and fewer than 3 split attempts have happened, the old
prepare_parameters bisects the prompt at its midpoint with a 5 percent
overlap window — the left half is prompt[0 : midpoint + overlap] and the
right half is prompt[midpoint - overlap : end], both cut points clamped to
the string bounds — and recursively prepares parameters for each half with
the attempt counter incremented by one. -/
theorem old_prepare_bisects_on_overflow (enc : String → Nat) (cfg : Config)
    (prompt : String) (cut_attempt : Nat)
    (htok : messages_token_count enc (messages_json cfg.system_prompt prompt) > MAX_INPUT_TOKENS)
    (hcut : cut_attempt < CUTS) :
    GptApiOld.prepare_parameters enc cfg prompt cut_attempt =
      (GptApiOld.prepare_parameters enc cfg (GptApiOld.first_half prompt) (cut_attempt + 1)).bind
        (fun first_parameters =>
          (GptApiOld.prepare_parameters enc cfg (GptApiOld.second_half prompt) (cut_attempt + 1)).bind
            (fun _second_parameters => Except.ok first_parameters)) :=
  GptApiOld.prepare_split_eq enc cfg prompt cut_attempt htok hcut

/-- Witness for C3: a concrete overflowing prompt of four characters at cut
attempt 0; the hypotheses hold and the split equation applies. -/
theorem old_prepare_bisects_on_overflow_witness :
    messages_token_count encSel (messages_json scenPlain.system_prompt ("abcd")) > MAX_INPUT_TOKENS ∧
    (0 : Nat) < CUTS ∧
    GptApiOld.prepare_parameters encSel scenPlain ("abcd") 0 =
      (GptApiOld.prepare_parameters encSel scenPlain (GptApiOld.first_half ("abcd")) (0 + 1)).bind
        (fun first_parameters =>
          (GptApiOld.prepare_parameters encSel scenPlain (GptApiOld.second_half ("abcd")) (0 + 1)).bind
            (fun _second_parameters => Except.ok first_parameters)) :=
  ⟨by decide, by decide,
    old_prepare_bisects_on_overflow encSel scenPlain ("abcd") 0 (by decide) (by decide)⟩

/-- C4: whenever the overflow split is taken and preparation succeeds, the
returned parameters are exactly the parameters prepared from the first half
of the prompt; the parameters of the second half were computed (they exist
as an ok result, and a failure in them would have propagated) but are
discarded, and no recombination of the two halves occurs. -/
theorem old_prepare_returns_first_half_only (enc : String → Nat) (cfg : Config)
    (prompt : String) (cut_attempt : Nat) (ps : List (String × Json))
    (htok : messages_token_count enc (messages_json cfg.system_prompt prompt) > MAX_INPUT_TOKENS)
    (hcut : cut_attempt < CUTS)
    (hok : GptApiOld.prepare_parameters enc cfg prompt cut_attempt = Except.ok ps) :
    GptApiOld.prepare_parameters enc cfg (GptApiOld.first_half prompt) (cut_attempt + 1) =
      Except.ok ps ∧
    ∃ qs, GptApiOld.prepare_parameters enc cfg (GptApiOld.second_half prompt) (cut_attempt + 1) =
      Except.ok qs := by
  rw [GptApiOld.prepare_split_eq enc cfg prompt cut_attempt htok hcut] at hok
  cases h1 : GptApiOld.prepare_parameters enc cfg (GptApiOld.first_half prompt) (cut_attempt + 1) with
  | error e => rw [h1] at hok; exact absurd hok (by simp [Except.bind])
  | ok fp =>
    rw [h1] at hok
    cases h2 : GptApiOld.prepare_parameters enc cfg (GptApiOld.second_half prompt) (cut_attempt + 1) with
    | error e => rw [h2] at hok; exact absurd hok (by simp [Except.bind])
    | ok qs =>
      rw [h2] at hok
      simp only [Except.bind] at hok
      exact ⟨hok, qs, rfl⟩

/-- Witness for C4: the four-character prompt splits into the halves ab and
cd, both halves prepare successfully, and the overall result is the first
half request. -/
theorem old_prepare_returns_first_half_only_witness :
    GptApiOld.prepare_parameters encSel scenPlain (GptApiOld.first_half ("abcd")) (0 + 1) =
      Except.ok (base_request scenPlain ("ab")) ∧
    ∃ qs, GptApiOld.prepare_parameters encSel scenPlain (GptApiOld.second_half ("abcd")) (0 + 1) =
      Except.ok qs :=
  old_prepare_returns_first_half_only encSel scenPlain ("abcd") 0
    (base_request scenPlain ("ab")) (by decide) (by decide) rfl

/-- C5: when the token count exceeds the ceiling and the cut budget is
exhausted (the attempt counter has reached CUTS = 3), the old
prepare_parameters raises the too-large error instead of returning
parameters. -/
theorem old_prepare_raises_too_large (enc : String → Nat) (cfg : Config)
    (prompt : String) (cut_attempt : Nat)
    (htok : messages_token_count enc (messages_json cfg.system_prompt prompt) > MAX_INPUT_TOKENS)
    (hcut : CUTS ≤ cut_attempt) :
    GptApiOld.prepare_parameters enc cfg prompt cut_attempt = Except.error Err.tooLarge := by
  unfold GptApiOld.prepare_parameters
  rw [Nat.sub_eq_zero_of_le hcut]
  simp only [GptApiOld.prepare_aux]
  rw [if_pos htok]

/-- Witness for C5: under the 200000-token counter every prompt overflows,
and at cut attempt 3 preparation fails with the too-large error. -/
theorem old_prepare_raises_too_large_witness :
    messages_token_count encBig (messages_json scenPlain.system_prompt ("hello")) > MAX_INPUT_TOKENS ∧
    CUTS ≤ 3 ∧
    GptApiOld.prepare_parameters encBig scenPlain ("hello") 3 = Except.error Err.tooLarge :=
  ⟨by decide, by decide,
    old_prepare_raises_too_large encBig scenPlain ("hello") 3 (by decide) (by decide)⟩

/-- C9: the recursion of the old prepare_parameters terminates with depth
bounded by the remaining cut budget, hence by 3, for every token counter,
profile, prompt and starting attempt counter — even when a split does not
shrink the prompt. -/
theorem old_prepare_recursion_depth_bounded (enc : String → Nat) (cfg : Config)
    (prompt : String) (cut_attempt : Nat) :
    GptApiOld.split_depth enc cfg (CUTS - cut_attempt) prompt ≤ CUTS - cut_attempt ∧
    CUTS - cut_attempt ≤ 3 :=
  ⟨GptApiOld.split_depth_le enc cfg (CUTS - cut_attempt) prompt, Nat.sub_le CUTS cut_attempt⟩

/-- C1 counterexample: a parsed profile mapping that is missing the required
field model loads successfully and unchanged — loading neither fails nor
produces any error naming the missing field. -/
theorem load_yaml_missing_model_succeeds :
    ConfigurationManager.load_yaml (some profileMissingModel) = Except.ok profileMissingModel ∧
    List.lookup ("model") profileMissingModel = none :=
  ⟨rfl, rfl⟩

/-- C1 amended: loading a profile performs no required-field validation at
all — every successfully parsed mapping is returned unchanged regardless of
which fields it contains, and the config error arises only when the YAML
itself fails to parse.  A missing required field surfaces later, as a key
lookup failure when the field is first read, not as a load-time error. -/
theorem load_yaml_no_field_validation :
    (∀ m : List (String × Json), ConfigurationManager.load_yaml (some m) = Except.ok m) ∧
    ConfigurationManager.load_yaml none = Except.error Err.configError :=
  ⟨fun _ => rfl, rfl⟩

/-- C2 counterexample: for the structured scenario profile of the spec the
built request carries no response_format entry at all; it carries a
functions list whose schema is the profile schema verbatim — without any
type object wrapper, without required, without additionalProperties, without
strict, and under the fixed name format_response rather than the profile
name x — together with a function_call selector. -/
theorem scenario_request_has_no_response_format :
    (GptApi.prepare_parameters encOne scenStructured ("hello")).map
        (fun ps => (List.lookup ("response_format") ps,
                    List.lookup ("functions") ps,
                    List.lookup ("function_call") ps)) =
      Except.ok (none,
        some (Json.arr [Json.obj
          [(("name"), Json.str ("format_response")),
           (("description"), Json.str ("Formats the response according to the specified schema.")),
           (("parameters"), scenSchema)]]),
        some (Json.obj [(("name"), Json.str ("format_response"))])) :=
  rfl

/-- C2 amended: whenever structured output is enabled and a schema is
present, the prepared request attaches the legacy function-calling fields —
functions, a one-element list holding the fixed name format_response, a
fixed description and the profile schema verbatim, plus a function_call
selector naming format_response — and no response_format descriptor of any
shape; the schema is not normalized in any way. -/
theorem structured_request_uses_function_calling (enc : String → Nat) (cfg : Config)
    (prompt : String) (ps : List (String × Json)) (so : StructuredOutputConfig) (sch : Json)
    (hso : cfg.structured_output = some so) (hen : so.enable = true)
    (hsch : so.schema = some sch)
    (hok : GptApi.prepare_parameters enc cfg prompt = Except.ok ps) :
    List.lookup ("functions") ps =
      some (Json.arr [Json.obj
        [(("name"), Json.str ("format_response")),
         (("description"), Json.str ("Formats the response according to the specified schema.")),
         (("parameters"), sch)]]) ∧
    List.lookup ("function_call") ps = some (Json.obj [(("name"), Json.str ("format_response"))]) ∧
    List.lookup ("response_format") ps = none := by
  have h := (prepare_ok_cases hok).2
  simp only [attach_structured_output, hso, hen, if_true, hsch] at h
  have hps : ps = base_request cfg prompt ++ structured_extras sch := (Except.ok.inj h).symm
  subst hps
  exact ⟨rfl, rfl, rfl⟩

/-- Witness for the amended C2: the structured scenario profile satisfies the
hypotheses, and the function-calling fields of its request are as stated. -/
theorem structured_request_uses_function_calling_witness :
    List.lookup ("functions") (base_request scenStructured ("hello") ++ structured_extras scenSchema) =
      some (Json.arr [Json.obj
        [(("name"), Json.str ("format_response")),
         (("description"), Json.str ("Formats the response according to the specified schema.")),
         (("parameters"), scenSchema)]]) ∧
    List.lookup ("function_call") (base_request scenStructured ("hello") ++ structured_extras scenSchema) =
      some (Json.obj [(("name"), Json.str ("format_response"))]) ∧
    List.lookup ("response_format") (base_request scenStructured ("hello") ++ structured_extras scenSchema) =
      none :=
  structured_request_uses_function_calling encOne scenStructured ("hello")
    (base_request scenStructured ("hello") ++ structured_extras scenSchema)
    { enable := true, name := some ("x"), strict := none, schema := some scenSchema }
    scenSchema rfl rfl rfl rfl

/-- C6: whenever the current prepare_parameters returns a request, its
messages entry is exactly the two-entry sequence system role with the
profile system_prompt and user role with the prompt string verbatim. -/
theorem request_messages_two_entries (enc : String → Nat) (cfg : Config)
    (prompt : String) (ps : List (String × Json))
    (hok : GptApi.prepare_parameters enc cfg prompt = Except.ok ps) :
    List.lookup ("messages") ps =
      some (Json.arr
        [Json.obj [(("role"), Json.str ("system")), (("content"), Json.str cfg.system_prompt)],
         Json.obj [(("role"), Json.str ("user")), (("content"), Json.str prompt)]]) :=
  lookup_messages_of_attach (prepare_ok_cases hok).2

/-- Witness for C6: the scenario profile with prompt hello produces the
messages system S and user hello. -/
theorem request_messages_two_entries_witness :
    GptApi.prepare_parameters encOne scenPlain ("hello") =
      Except.ok (base_request scenPlain ("hello")) ∧
    List.lookup ("messages") (base_request scenPlain ("hello")) =
      some (Json.arr
        [Json.obj [(("role"), Json.str ("system")), (("content"), Json.str ("S"))],
         Json.obj [(("role"), Json.str ("user")), (("content"), Json.str ("hello"))]]) :=
  ⟨rfl, request_messages_two_entries encOne scenPlain ("hello")
    (base_request scenPlain ("hello")) rfl⟩

/-- C7: every prepared request copies max_tokens, temperature, top_p and n
from the profile unconditionally, and carries stop, frequency_penalty and
presence_penalty from the profile when present, defaulted to null, 0 and 0
when absent. -/
theorem request_copies_sampling_params (enc : String → Nat) (cfg : Config)
    (prompt : String) (ps : List (String × Json))
    (hok : GptApi.prepare_parameters enc cfg prompt = Except.ok ps) :
    List.lookup ("max_tokens") ps = some (Json.num cfg.parameters.max_tokens) ∧
    List.lookup ("temperature") ps = some cfg.parameters.temperature ∧
    List.lookup ("top_p") ps = some cfg.parameters.top_p ∧
    List.lookup ("n") ps = some cfg.parameters.n ∧
    List.lookup ("stop") ps = some (cfg.parameters.stop.getD Json.null) ∧
    List.lookup ("frequency_penalty") ps = some (cfg.parameters.frequency_penalty.getD (Json.num 0)) ∧
    List.lookup ("presence_penalty") ps = some (cfg.parameters.presence_penalty.getD (Json.num 0)) := by
  rcases attach_ok_cases (prepare_ok_cases hok).2 with h | ⟨sch, h⟩ <;> subst h <;>
    exact ⟨rfl, rfl, rfl, rfl, rfl, rfl, rfl⟩

/-- Witness for C7: the scenario profile, whose optional knobs are absent,
yields a request with its mandatory values and the defaults null, 0, 0. -/
theorem request_copies_sampling_params_witness :
    List.lookup ("max_tokens") (base_request scenPlain ("hello")) = some (Json.num 10) ∧
    List.lookup ("temperature") (base_request scenPlain ("hello")) = some (Json.num 0) ∧
    List.lookup ("top_p") (base_request scenPlain ("hello")) = some (Json.num 1) ∧
    List.lookup ("n") (base_request scenPlain ("hello")) = some (Json.num 1) ∧
    List.lookup ("stop") (base_request scenPlain ("hello")) = some Json.null ∧
    List.lookup ("frequency_penalty") (base_request scenPlain ("hello")) = some (Json.num 0) ∧
    List.lookup ("presence_penalty") (base_request scenPlain ("hello")) = some (Json.num 0) :=
  request_copies_sampling_params encOne scenPlain ("hello") (base_request scenPlain ("hello")) rfl

/-- C8 counterexample: in structured mode, when the function-call payload is
entirely absent (message.function_call is None), extraction fails with the
attribute-access error — the generic unexpected-error path — and not with
the empty-result error the claim requires for an absent field. -/
theorem extract_absent_function_call_not_empty_result :
    extract_result true (Completion.mk [choiceNoFunctionCall]) = Except.error Err.attributeError ∧
    (Err.attributeError == Err.emptyResult) = false :=
  ⟨rfl, rfl⟩

/-- C8 amended: result extraction fails with the empty-result error exactly
when the configured field — the function-call payload in structured mode,
provided the function_call member itself is present, and the free-text
content otherwise — is null or the empty string; when that field holds a
non-empty string the string is returned unchanged.  When the function_call
member is absent in structured mode, extraction instead fails with the
attribute-access error. -/
theorem extract_empty_result_characterization (structuredEnabled : Bool) (choice : Choice)
    (rest : List Choice)
    (hfc : structuredEnabled = true → choice.message.function_call ≠ none) :
    (extract_result structuredEnabled (Completion.mk (choice :: rest)) =
        Except.error Err.emptyResult ↔
      configured_field structuredEnabled choice = none ∨
      configured_field structuredEnabled choice = some ("")) ∧
    (∀ s : String, configured_field structuredEnabled choice = some s → s ≠ ("") →
      extract_result structuredEnabled (Completion.mk (choice :: rest)) = Except.ok s) := by
  rcases choice with ⟨⟨content, fc⟩⟩
  cases structuredEnabled with
  | false =>
    cases content with
    | none => simp [extract_result, configured_field, Except.bind]
    | some s =>
      by_cases hs : s = ("")
      · subst hs
        simp [extract_result, configured_field, Except.bind]
      · constructor
        · simp [extract_result, configured_field, Except.bind, hs]
        · intro t ht hne
          simp [configured_field] at ht
          subst ht
          simp [extract_result, Except.bind, hs]
  | true =>
    cases fc with
    | none => exact absurd rfl (hfc rfl)
    | some f =>
      cases hargs : f.arguments with
      | none =>
        simp [extract_result, configured_field, Except.bind, hargs]
      | some s =>
        by_cases hs : s = ("")
        · subst hs
          simp [extract_result, configured_field, Except.bind, hargs]
        · constructor
          · simp [extract_result, configured_field, Except.bind, hargs, hs]
          · intro t ht hne
            simp [configured_field, hargs] at ht
            subst ht
            simp [extract_result, Except.bind, hargs, hs]

/-- Witness for the amended C8: a structured response whose function_call is
present but whose arguments payload is null is rejected with the
empty-result error. -/
theorem extract_empty_result_characterization_witness :
    extract_result true (Completion.mk [choiceNullArguments]) = Except.error Err.emptyResult :=
  ((extract_empty_result_characterization true choiceNullArguments []
    (fun _ => by decide)).1).mpr (Or.inl rfl)

/-- C10: in the current pipeline the batching branch is unreachable — the
pipeline always equals preparing the parameters and extracting the result of
the completion call, so the completion variable is assigned before it is
read and the unbound-completion error can never occur.  The recount of the
message tokens made by gptapi uses the same encoding on the same messages as
the successful prepare_parameters, hence cannot exceed max_tokens. -/
theorem gptapi_split_branch_unreachable (enc : String → Nat) (cfg : Config)
    (prompt : String) (respond : List (String × Json) → Completion) :
    gptapi_pipeline enc cfg prompt respond =
      (GptApi.prepare_parameters enc cfg prompt).bind (fun ps =>
        extract_result (structured_enabled cfg) (respond ps)) := by
  unfold gptapi_pipeline
  cases hok : GptApi.prepare_parameters enc cfg prompt with
  | error e => rfl
  | ok ps =>
    have hle := (prepare_ok_cases hok).1
    have hmsgs := lookup_messages_of_attach (prepare_ok_cases hok).2
    simp only [Except.bind]
    rw [hmsgs]
    simp only [Option.getD]
    rw [if_neg (Nat.not_lt.mpr hle)]
